import Mathlib

/-!
Verification of the GCC build-repair agent (builder.py, builder_v3.py,
builder_v4.py) against its natural-language specification.

The Python sources are shallowly embedded below.  Strings are modelled as
`String`/`List Char`, the filesystem as a partial map `Fs := String → Option
String`, the external build tool and the code-repair oracle as explicit
function parameters, and the `re` patterns of the sources as a small
backtracking matcher over an atom list that transcribes each pattern
literally.  `Option` results model uncaught Python exceptions (`none` =
the exception propagates and kills the process).
-/

set_option autoImplicit false

namespace GccAgent

/-- Python `\s` for the ASCII range (`str.strip`, `\s` in the patterns). -/
def pyIsSpaceB (c : Char) : Bool :=
  c == ' ' || c == '\t' || c == '\n' || c == '\r' || c == '\x0b' || c == '\x0c'

/-- Python `str.strip()` on a character list. -/
def pyStripL (l : List Char) : List Char :=
  ((l.dropWhile pyIsSpaceB).reverse.dropWhile pyIsSpaceB).reverse

/-- Python `str.strip()`. -/
def pyStrip (s : String) : String :=
  String.mk (pyStripL s.data)

/-- All indices `i` of `s` at which the literal `sep` occurs. -/
def infixPositions (sep s : List Char) : List Nat :=
  (List.range (s.length + 1)).filter (fun i => sep.isPrefixOf (s.drop i))

/-- Python `needle in hay` (substring test). -/
def pyInL (needle hay : List Char) : Bool :=
  ¬ (infixPositions needle hay) = []

/-- Python `needle in hay` on `String`s. -/
def pyInStr (needle hay : String) : Bool :=
  pyInL needle.data hay.data

/-- Split on every occurrence of a separator character (Python
`str.split(sep)` for a one-character separator: empty pieces are kept). -/
def splitOnChar (sep : Char) : List Char → List (List Char)
  | [] => [[]]
  | c :: cs =>
      let r := splitOnChar sep cs
      if c == sep then [] :: r
      else
        match r with
        | h :: t => (c :: h) :: t
        | [] => [[c]]

/-- The backtick character (U+0060). -/
def backtick : Char := Char.ofNat 96

/-- The single-quote character (U+0027). -/
def squote : Char := Char.ofNat 39

/-- One step of the regular expressions used by the builders: a literal, an
alternation of two literals, a greedy character-class repetition (`+` via
`plus`, `*` via `star`), an optional character class (`[..]?`), an optional
literal-then-class-plus sequence (`(?:fatal\s+)?`), or the MULTILINE `$`
anchor. Capturing classes carry their group index. -/
inductive Atom where
  | lit (s : List Char)
  | alt (a b : List Char)
  | plus (cap : Option Nat) (p : Char → Bool)
  | star (p : Char → Bool)
  | optCls (p : Char → Bool)
  | optSeq (s : List Char) (p : Char → Bool)
  | eol

/-- Record a capture group (Python match groups). -/
def capsAdd (caps : List (Nat × List Char)) : Option Nat → List Char → List (Nat × List Char)
  | none, _ => caps
  | some n, cs => caps ++ [(n, cs)]

/-- Look up a capture group by index. -/
def capGet (caps : List (Nat × List Char)) (n : Nat) : Option (List Char) :=
  (caps.find? (fun e => e.1 == n)).map (fun e => e.2)

mutual

/-- Match an atom sequence at the start of `s`, with Python's greedy,
backtracking semantics; returns the captures and the unconsumed rest. The
fuel bounds the backtracking search and is chosen large enough for every
evaluation in this file. -/
def matchAtoms : Nat → List Atom → List Char → List (Nat × List Char) →
    Option (List (Nat × List Char) × List Char)
  | 0, _, _, _ => none
  | _ + 1, [], s, caps => some (caps, s)
  | fuel + 1, .lit l :: as, s, caps =>
      if l.isPrefixOf s then matchAtoms fuel as (s.drop l.length) caps else none
  | fuel + 1, .alt a b :: as, s, caps =>
      (if a.isPrefixOf s then matchAtoms fuel as (s.drop a.length) caps else none).orElse
        (fun _ => if b.isPrefixOf s then matchAtoms fuel as (s.drop b.length) caps else none)
  | fuel + 1, .plus cap p :: as, s, caps =>
      let run := s.takeWhile p
      tryLens fuel as (s.drop run.length) caps cap run run.length 1
  | fuel + 1, .star p :: as, s, caps =>
      let run := s.takeWhile p
      tryLens fuel as (s.drop run.length) caps none run run.length 0
  | fuel + 1, .optCls p :: as, s, caps =>
      (match s with
       | c :: cs => if p c then matchAtoms fuel as cs caps else none
       | [] => none).orElse
        (fun _ => matchAtoms fuel as s caps)
  | fuel + 1, .optSeq l p :: as, s, caps =>
      (if l.isPrefixOf s then
         let s' := s.drop l.length
         let run := s'.takeWhile p
         tryLens fuel as (s'.drop run.length) caps none run run.length 1
       else none).orElse
        (fun _ => matchAtoms fuel as s caps)
  | fuel + 1, .eol :: as, s, caps =>
      match s with
      | [] => matchAtoms fuel as s caps
      | c :: _ => if c == '\n' then matchAtoms fuel as s caps else none

/-- Greedy repetition: try consuming `k` characters of `run` (longest
first, down to `min`), backtracking into the remaining atoms. -/
def tryLens : Nat → List Atom → List Char → List (Nat × List Char) →
    Option Nat → List Char → Nat → Nat →
    Option (List (Nat × List Char) × List Char)
  | 0, _, _, _, _, _, _, _ => none
  | fuel + 1, as, rest, caps, cap, run, k, min =>
      if k < min then none
      else
        match matchAtoms fuel as (run.drop k ++ rest) (capsAdd caps cap (run.take k)) with
        | some r => some r
        | none =>
            if k = 0 then none
            else tryLens fuel as rest caps cap run (k - 1) min

end

/-- Fuel that is amply sufficient for the tiny patterns in this file. -/
def engineFuel (s : List Char) : Nat :=
  (s.length + 16) * (s.length + 16)

/-- Python `re.search`: try the pattern at each position, leftmost match
first.  `bolOnly` models a `^`-anchored MULTILINE pattern: the match may
start only at the beginning of the text or right after a newline. -/
def reSearchAux (bolOnly : Bool) (pat : List Atom) :
    List Char → Bool → Option (List (Nat × List Char) × List Char)
  | s, atLS =>
      match (if bolOnly && !atLS then none else matchAtoms (engineFuel s) pat s []) with
      | some r => some r
      | none =>
          match s with
          | [] => none
          | c :: cs => reSearchAux bolOnly pat cs (c == '\n')

/-- `COMPILE_ERROR_PATTERN` of builder.py l.15 / builder_v3.py l.13 /
builder_v4.py l.15:
`^([^:\n]+):(\d+):(\d+):\s+(?:fatal\s+)?error:\s+(.+)$` with `re.MULTILINE`. -/
def compileAtoms : List Atom :=
  [ .plus (some 1) (fun c => !(c == ':') && !(c == '\n')),
    .lit [':'], .plus (some 2) Char.isDigit,
    .lit [':'], .plus (some 3) Char.isDigit,
    .lit [':'],
    .plus none pyIsSpaceB,
    .optSeq "fatal".data pyIsSpaceB,
    .lit "error:".data,
    .plus none pyIsSpaceB,
    .plus (some 4) (fun c => !(c == '\n')),
    .eol ]

/-- `LINKER_ERROR_PATTERN` of builder_v4.py l.19:
``(?:undefined reference to|undefined symbol:)\s+[`']?([^'\n]+)['`]?``. -/
def linkerAtoms : List Atom :=
  [ .alt "undefined reference to".data "undefined symbol:".data,
    .plus none pyIsSpaceB,
    .optCls (fun c => c == backtick || c == squote),
    .plus (some 1) (fun c => !(c == squote) && !(c == '\n')),
    .optCls (fun c => c == squote || c == backtick) ]

/-- The `FILE:` marker pattern `FILE:\s*([^\s\n]+)` used by
`re.split` in builder_v3.py l.90 and builder_v4.py l.115. -/
def fileAtoms : List Atom :=
  [ .lit "FILE:".data,
    .star pyIsSpaceB,
    .plus (some 1) (fun c => !(pyIsSpaceB c)) ]

/-- `INCLUDE_PATTERN` of builder_v3.py l.15: `#include\s+"([^"]+)"`. -/
def includeAtoms : List Atom :=
  [ .lit "#include".data,
    .plus none pyIsSpaceB,
    .lit ['"'],
    .plus (some 1) (fun c => !(c == '"')),
    .lit ['"'] ]

/-- `COMPILE_ERROR_PATTERN.search(log)`: groups (path, line, col, message). -/
def compileSearch (log : String) : Option (String × String × String × String) :=
  (reSearchAux true compileAtoms log.data true).map (fun r =>
    (String.mk ((capGet r.1 1).getD []), String.mk ((capGet r.1 2).getD []),
     String.mk ((capGet r.1 3).getD []), String.mk ((capGet r.1 4).getD [])))

/-- `LINKER_ERROR_PATTERN.search(log)`: group 1, the captured symbol. -/
def linkerSearch (log : String) : Option String :=
  (reSearchAux false linkerAtoms log.data true).map (fun r =>
    String.mk ((capGet r.1 1).getD []))

/-- `re.split(r'FILE:\s*([^\s\n]+)', s)`: the text pieces between matches
interleaved with the captured group of each match, exactly as Python's
`re.split` with one capturing group returns them.  Each loop step either
consumes a whole match (at least the 5 literal characters of `FILE:`) or
advances one character, so `s.length + 1` fuel always suffices. -/
def fileSplitAux : Nat → List Char → List Char → List (List Char)
  | 0, acc, _ => [acc.reverse]
  | fuel + 1, acc, s =>
      match matchAtoms (engineFuel s) fileAtoms s [] with
      | some r => acc.reverse :: (capGet r.1 1).getD [] :: fileSplitAux fuel [] r.2
      | none =>
          match s with
          | [] => [acc.reverse]
          | c :: cs => fileSplitAux fuel (c :: acc) cs

/-- `re.split(r'FILE:\s*([^\s\n]+)', s)`. -/
def fileSplit (s : List Char) : List (List Char) :=
  fileSplitAux (s.length + 1) [] s

/-- `INCLUDE_PATTERN.findall(s)` (builder_v3.py l.39): all group-1 captures
of non-overlapping matches, scanning left to right. -/
def reFindallAux : Nat → List Atom → List Char → List (List Char)
  | 0, _, _ => []
  | fuel + 1, pat, s =>
      match matchAtoms (engineFuel s) pat s [] with
      | some r => (capGet r.1 1).getD [] :: reFindallAux fuel pat r.2
      | none =>
          match s with
          | [] => []
          | _ :: cs => reFindallAux fuel pat cs

/-- `pat.findall(s)` returning the group-1 captures. -/
def reFindall (pat : List Atom) (s : List Char) : List (List Char) :=
  reFindallAux (s.length + 1) pat s

/-! ### `os.path` helpers used by the sources -/

/-- `os.path.isabs` (POSIX). -/
def pyIsAbs (p : String) : Bool := "/".data.isPrefixOf p.data

/-- `os.path.dirname` (POSIX). -/
def pyDirname (p : String) : String :=
  match (infixPositions ['/'] p.data).getLast? with
  | none => ""
  | some i =>
      let head := p.data.take (i + 1)
      if head.all (fun c => c == '/') then String.mk head
      else String.mk ((head.reverse.dropWhile (fun c => c == '/')).reverse)

/-- `os.path.join a b` for a single relative or absolute `b` (POSIX). -/
def pyJoin (a b : String) : String :=
  if "/".data.isPrefixOf b.data then b
  else if a.data = [] ∨ a.data.getLast? = some '/' then a ++ b
  else a ++ "/" ++ b

/-- `os.path.normpath` (POSIX). -/
def pyNormpath (p : String) : String :=
  if p = "" then "."
  else
    let cs := p.data
    let slashes : Nat :=
      if "//".data.isPrefixOf cs ∧ ¬ "///".data.isPrefixOf cs then 2
      else if "/".data.isPrefixOf cs then 1 else 0
    let news := (splitOnChar '/' cs).foldl
      (fun (news : List (List Char)) comp =>
        if comp = [] ∨ comp = ['.'] then news
        else if comp ≠ "..".data ∨ (slashes = 0 ∧ news = []) ∨ news.getLast? = some "..".data then
          news ++ [comp]
        else if news ≠ [] then news.dropLast
        else news) []
    let out := List.replicate slashes '/' ++ List.intercalate ['/'] news
    if out = [] then "." else String.mk out

/-- `os.path.splitext(file)[1]`: the extension, honouring Python's rule that
dots leading the name do not begin an extension. -/
def pySplitextExt (file : String) : String :=
  let cs := file.data
  let lead := (cs.takeWhile (fun c => c == '.')).length
  let dots := (List.range cs.length).filter (fun i => cs.getD i ' ' == '.')
  match (dots.filter (fun i => lead ≤ i)).getLast? with
  | some i => String.mk (cs.drop i)
  | none => ""

/-- `str.splitlines()` for `\n`-separated text (the only separator occurring
in the logs and sources this development reasons about). -/
def pySplitLines (s : String) : List String :=
  if s.data = [] then []
  else if s.data.getLast? = some '\n' then
    ((splitOnChar '\n' s.data).map String.mk).dropLast
  else (splitOnChar '\n' s.data).map String.mk

/-! ### Shared data model -/

/-- The filesystem, as a partial map from path to file content.
`none` models a path that does not exist (reading it raises). -/
def Fs : Type := String → Option String

/-- Writing a file (`open(p, "w").write(c)`, or `shutil.copy` to `p`). -/
def fsWrite (fs : Fs) (p c : String) : Fs :=
  fun q => if q = p then some c else fs q

/-- A classified build failure (spec §3 `DiagnosedError`). -/
inductive DiagnosedError where
  | compile (path line col msg : String)
  | link (symbol : String)
  | unclassified
deriving DecidableEq

/-- Observable actions of a session, for stating how the loops behave. -/
inductive Event where
  | configure
  | build
  | oracle
  | report
  | write (path : String)
deriving DecidableEq, BEq

/-- Python `dict` assignment `d[k] = v`: update in place if the key exists
(keeping its position), else append. -/
def dictInsert (d : List (String × String)) (k v : String) : List (String × String) :=
  if d.any (fun e => e.1 == k) then
    d.map (fun e => if e.1 == k then (k, v) else e)
  else d ++ [(k, v)]

/-- A markdown code fence. -/
def fence : List Char := [backtick, backtick, backtick]

/-- Index of the first occurrence of `sep` in `s`. -/
def firstIdx (sep s : List Char) : Option Nat :=
  (infixPositions sep s).head?

/-- The code-block cleaning shared by builder_v3.py l.103-109 and
builder_v4.py l.123-129:
if a fence occurs, take `raw.split("```")[1]`, drop the first line when the
segment starts with a `cpp`/`c` language tag (`split("\n", 1)[1]`, an
`IndexError` — `none` — if there is no newline), then `rsplit("```", 1)[0]`;
otherwise keep the raw block. -/
def extractCode (raw : List Char) : Option (List Char) :=
  match firstIdx fence raw with
  | none => some raw
  | some i =>
      let rest := raw.drop (i + 3)
      let seg :=
        match firstIdx fence rest with
        | some j => rest.take j
        | none => rest
      let seg? : Option (List Char) :=
        if "cpp".data.isPrefixOf seg ∨ "c".data.isPrefixOf seg then
          match firstIdx ['\n'] seg with
          | some k => some (seg.drop (k + 1))
          | none => none
        else some seg
      seg?.map (fun code =>
        match (infixPositions fence code).getLast? with
        | some m => code.take m
        | none => code)

/-- The `(filename, raw block)` pairs that the loops of
builder_v3.py l.98-99 and builder_v4.py l.118-119 traverse:
`parts[i].strip()` with `parts[i+1]` for odd `i`. -/
def pairList : List (List Char) → List (String × List Char)
  | c :: t :: rest => (pyStrip (String.mk c), t) :: pairList rest
  | _ => []

/-- The patch entries parsed from an oracle response. -/
def patchEntries (resp : String) : List (String × List Char) :=
  pairList ((fileSplit resp.data).drop 1)

/-- Run one write step per entry, stopping at the first uncaught
exception (`none`). -/
def applyList (step : Fs → (String × List Char) → Option Fs) :
    Fs → List (String × List Char) → Option Fs
  | fs, [] => some fs
  | fs, e :: es =>
      match step fs e with
      | some fs' => applyList step fs' es
      | none => none

/-! ### builder.py (v1) -/

namespace V1

/-- `find_culprit_file` (builder.py l.29-45): first compile-error match,
normalising an absolute path via `os.path.relpath` — modelled by the
parameter `relp`, with `none` for the `ValueError` that keeps the path
absolute.  Returns `(file_path, line_num, error_msg)`. -/
def find_culprit_file (relp : String → Option String) (log : String) :
    Option (String × String × String) :=
  (compileSearch log).map (fun g =>
    ((if pyIsAbs g.1 then (relp g.1).getD g.1 else g.1), g.2.1, g.2.2.2))

/-- `extract_code` (builder.py l.75-80): `split("```")[1]`, drop the first
line unconditionally (`IndexError` — `none` — when the segment has no
newline), `rsplit("```", 1)[0]`, `strip()`; without a fence the response is
returned unchanged. -/
def extract_code (resp : String) : Option String :=
  match firstIdx fence resp.data with
  | none => some resp
  | some i =>
      let rest := resp.data.drop (i + 3)
      let seg :=
        match firstIdx fence rest with
        | some j => rest.take j
        | none => rest
      match firstIdx ['\n'] seg with
      | some k =>
          let code := seg.drop (k + 1)
          let code :=
            match (infixPositions fence code).getLast? with
            | some m => code.take m
            | none => code
          some (pyStrip (String.mk code))
      | none => none

/-- `build_project` (builder.py l.82-143).  The external configure/build
commands are the parameters `cfgOk`, `bldOk`, `bldLog` (merged output), the
oracle `get_ai_fix` is `orc code_content error_log file_path`; directory
creation for the build dir is elided (it does not touch the modelled file
map).  On a fix the culprit is backed up to `path + ".bak"` and
overwritten; the function then returns `false` (builder.py l.143). -/
def build_project (fs : Fs) (cfgOk bldOk : Bool) (bldLog : String)
    (orc : String → String → String → String) (relp : String → Option String) :
    Option (Bool × Fs × List Event) :=
  if fs "CMakeLists.txt" = none then some (false, fs, [.report])
  else if ¬ cfgOk then some (false, fs, [.configure, .report])
  else if bldOk then some (true, fs, [.configure, .build])
  else
    match find_culprit_file relp bldLog with
    | none => some (false, fs, [.configure, .build, .report])
    | some g =>
        match fs g.1 with
        | none => some (false, fs, [.configure, .build, .report])
        | some code =>
            match extract_code (orc code bldLog g.1) with
            | none => none
            | some fixed =>
                some (false, fsWrite (fsWrite fs (g.1 ++ ".bak") code) g.1 fixed,
                  [.configure, .build, .oracle, .write g.1])

/-- The `while attempt <= MAX_ATTEMPTS` loop of `main` (builder.py
l.145-160), by remaining attempts; falling past the loop is `sys.exit(1)`. -/
def mainAux (cfg bld : Nat → Bool) (blog : Nat → String)
    (orc : String → String → String → String) (relp : String → Option String) :
    Nat → Nat → Fs → Option (Nat × List Event)
  | 0, _, _ => some (1, [])
  | fuel + 1, att, fs =>
      match build_project fs (cfg att) (bld att) (blog att) orc relp with
      | none => none
      | some (true, _, ev) => some (0, ev)
      | some (false, fs', ev) =>
          (mainAux cfg bld blog orc relp fuel (att + 1) fs').map
            (fun r => (r.1, ev ++ r.2))

/-- `main` (builder.py l.145-160): `MAX_ATTEMPTS = 3`, attempts start at 1. -/
def main (cfg bld : Nat → Bool) (blog : Nat → String)
    (orc : String → String → String → String) (relp : String → Option String)
    (fs : Fs) : Option (Nat × List Event) :=
  mainAux cfg bld blog orc relp 3 1 fs

end V1

/-! ### builder_v3.py -/

namespace V3

/-- `find_culprit_file` (builder_v3.py l.29-34): no path normalisation. -/
def find_culprit_file (log : String) : Option (String × String × String) :=
  (compileSearch log).map (fun g => (g.1, g.2.1, g.2.2.2))

/-- `get_related_headers` (builder_v3.py l.36-46): every
`INCLUDE_PATTERN` capture, resolved with `normpath(join(source_dir, ·))`,
read into a dict when it exists. -/
def get_related_headers (fs : Fs) (sourceCode sourceDir : String) :
    List (String × String) :=
  (reFindall includeAtoms sourceCode.data).foldl (fun headers h =>
    let full := pyNormpath (pyJoin sourceDir (String.mk h))
    match fs full with
    | some c => dictInsert headers full c
    | none => headers) []

/-- One iteration of the write loop of `parse_and_apply_fixes`
(builder_v3.py l.98-119): clean the block, back the target up to
`filename + ".bak"` when it exists, then overwrite it with the stripped
code. -/
def applyOne (fs : Fs) (e : String × List Char) : Option Fs :=
  (extractCode e.2).map (fun code =>
    let backed :=
      match fs e.1 with
      | some old => fsWrite fs (e.1 ++ ".bak") old
      | none => fs
    fsWrite backed e.1 (pyStrip (String.mk code)))

/-- `parse_and_apply_fixes` (builder_v3.py l.87-121): split on the `FILE:`
marker pattern; fewer than two parts means no marker and is reported as
`False` with nothing written; otherwise each `(filename, block)` pair is
cleaned and written, with a `.bak` backup for existing targets. -/
def parse_and_apply_fixes (resp : String) (fs : Fs) : Option (Bool × Fs) :=
  if (fileSplit resp.data).length < 2 then some (false, fs)
  else (applyList applyOne fs (patchEntries resp)).map (fun f => (true, f))

/-- `build_project` (builder_v3.py l.123-169).  The configure result is
assigned and immediately overwritten by the build result (l.132-135), so it
is ignored; the oracle `get_ai_fix` is `orc source_path source_code headers
error_log`. -/
def build_project (fs : Fs) (_cfgOk bldOk : Bool) (bldLog : String)
    (orc : String → String → List (String × String) → String → String) :
    Option (Bool × Fs × List Event) :=
  if fs "CMakeLists.txt" = none then some (false, fs, [.report])
  else if bldOk then some (true, fs, [.configure, .build])
  else
    match find_culprit_file bldLog with
    | none => some (false, fs, [.configure, .build, .report])
    | some g =>
        match fs g.1 with
        | none => some (false, fs, [.configure, .build, .report])
        | some src =>
            let headers := get_related_headers fs src (pyDirname g.1)
            match parse_and_apply_fixes (orc g.1 src headers bldLog) fs with
            | none => none
            | some r => some (false, r.2, [.configure, .build, .oracle])

/-- The `for attempt in range(1, MAX_ATTEMPTS + 1)` loop of `main`
(builder_v3.py l.171-179), by remaining attempts; falling past the loop
reaches `sys.exit(1)`. -/
def mainAux (cfg bld : Nat → Bool) (blog : Nat → String)
    (orc : String → String → List (String × String) → String → String) :
    Nat → Nat → Fs → Option (Nat × List Event)
  | 0, _, _ => some (1, [])
  | fuel + 1, att, fs =>
      match build_project fs (cfg att) (bld att) (blog att) orc with
      | none => none
      | some (true, _, ev) => some (0, ev)
      | some (false, fs', ev) =>
          (mainAux cfg bld blog orc fuel (att + 1) fs').map
            (fun r => (r.1, ev ++ r.2))

/-- `main` (builder_v3.py l.171-179): `MAX_ATTEMPTS = 5`. -/
def main (cfg bld : Nat → Bool) (blog : Nat → String)
    (orc : String → String → List (String × String) → String → String)
    (fs : Fs) : Option (Nat × List Event) :=
  mainAux cfg bld blog orc 5 1 fs

end V3

/-! ### builder_v4.py -/

namespace V4

/-- `EXTENSIONS` (builder_v4.py l.11). -/
def EXTENSIONS : List String := [".cpp", ".c", ".cc", ".cxx", ".hpp", ".h"]

/-- `get_all_source_files` (builder_v4.py l.33-41).  The output of
`os.walk` is the parameter `walk`, a list of `(root, files)` pairs in
traversal order; a root whose path contains `"build"` or `".git"` as a
substring is skipped, and the kept files are those whose `splitext`
extension is in `EXTENSIONS`, joined to their root. -/
def get_all_source_files (walk : List (String × List String)) : List String :=
  walk.foldr (fun e acc =>
    if pyInStr "build" e.1 || pyInStr ".git" e.1 then acc
    else (e.2.filter (fun f => EXTENSIONS.contains (pySplitextExt f))).map (pyJoin e.1) ++ acc)
    []

/-- The symbol cleaning of `search_symbol_in_project` (builder_v4.py l.46):
`symbol.split("(")[0].strip()`. -/
def cleanSymbol (symbol : String) : String :=
  pyStrip (String.mk (symbol.data.takeWhile (fun c => !(c == '('))))

/-- `search_symbol_in_project` (builder_v4.py l.43-60): read every source
file (unreadable ones are skipped by the bare `except`) and collect those
whose text contains the cleaned symbol as a substring. -/
def search_symbol_in_project (fs : Fs) (walk : List (String × List String))
    (symbol : String) : List (String × String) :=
  (get_all_source_files walk).foldl (fun found p =>
    match fs p with
    | some content =>
        if pyInStr (cleanSymbol symbol) content then dictInsert found p content
        else found
    | none => found) []

/-- One iteration of the write loop of `apply_fixes` (builder_v4.py
l.118-133): clean the block and overwrite the target — no backup of any
kind is taken. -/
def applyOne (fs : Fs) (e : String × List Char) : Option Fs :=
  (extractCode e.2).map (fun code => fsWrite fs e.1 (pyStrip (String.mk code)))

/-- `apply_fixes` (builder_v4.py l.113-135). -/
def apply_fixes (resp : String) (fs : Fs) : Option (Bool × Fs) :=
  if (fileSplit resp.data).length < 2 then some (false, fs)
  else (applyList applyOne fs (patchEntries resp)).map (fun f => (true, f))

/-- The classification performed inline by `analyze_and_fix`
(builder_v4.py l.154-156, 175-177): the compile-error search first, then
the linker-error search, each yielding its raw match groups. -/
def classify (log : String) : DiagnosedError :=
  match compileSearch log with
  | some (p, l, c, m) => .compile p l c m
  | none =>
      match linkerSearch log with
      | some s => .link s
      | none => .unclassified

/-- The resolved `h_path`s of the include scan of `analyze_and_fix`
(builder_v4.py l.164-168): lines containing `#include "` contribute
`os.path.join(base_dir, line.split('"')[1])`, in textual order. -/
def includePaths (brokenFile content : String) : List String :=
  (pySplitLines content).foldr (fun line acc =>
    if pyInStr "#include \"" line then
      pyJoin (pyDirname brokenFile) (String.mk ((splitOnChar '"' line.data).getD 1 [])) :: acc
    else acc) []

/-- The context dict built by the compile branch of `analyze_and_fix`
(builder_v4.py l.161-170): the broken file (read without a guard — `none`
models the uncaught exception when it is unreadable), then each resolved
include that exists. -/
def compileBundle (fs : Fs) (broken : String) : Option (List (String × String)) :=
  match fs broken with
  | none => none
  | some content =>
      some ((includePaths broken content).foldl (fun files h =>
        match fs h with
        | some hc => dictInsert files h hc
        | none => files) [(broken, content)])

/-- `analyze_and_fix` (builder_v4.py l.153-191).  The oracle `get_ai_fix`
is `orc error_type context_files error_log` (the prompt text adds nothing
observable); `some none` is the `return None` of the unknown-error branch,
`none` an uncaught read exception. -/
def analyze_and_fix (fs : Fs) (walk : List (String × List String))
    (orc : String → List (String × String) → String → String) (log : String) :
    Option (Option String) :=
  match classify log with
  | .compile p _ _ _ =>
      match compileBundle fs p with
      | none => none
      | some files => some (some (orc "compile" files log))
  | .link sym =>
      match search_symbol_in_project fs walk sym with
      | [] =>
          match fs "CMakeLists.txt" with
          | none => none
          | some c => some (some (orc "linker" [("CMakeLists.txt", c)] log))
      | related => some (some (orc "linker" related log))
  | .unclassified => some none

/-- `build_project` (builder_v4.py l.137-151): the configure command is
run but its result is never inspected; only the build result decides. -/
def build_project (_cfgOk bldOk : Bool) (bldLog : String) :
    Bool × Option String × List Event :=
  if bldOk then (true, none, [.configure, .build])
  else (false, some bldLog, [.configure, .build])

/-- The `for attempt in range(1, MAX_ATTEMPTS + 1)` loop of `main`
(builder_v4.py l.193-207), by remaining attempts.  An unclassifiable
failure or a falsy (empty) oracle response is `sys.exit(1)`; the result of
`apply_fixes` is ignored and the loop continues; falling past the loop ends
the script, i.e. exit status 0. -/
def mainAux (cfg bld : Nat → Bool) (blog : Nat → String)
    (orc : String → List (String × String) → String → String)
    (walk : List (String × List String)) :
    Nat → Nat → Fs → Option (Nat × List Event)
  | 0, _, _ => some (0, [])
  | fuel + 1, att, fs =>
      match build_project (cfg att) (bld att) (blog att) with
      | (true, _, ev) => some (0, ev)
      | (false, _, ev) =>
          match analyze_and_fix fs walk orc (blog att) with
          | none => none
          | some none => some (1, ev ++ [.report])
          | some (some resp) =>
              if resp = "" then some (1, ev ++ [.oracle, .report])
              else
                match apply_fixes resp fs with
                | none => none
                | some r =>
                    (mainAux cfg bld blog orc walk fuel (att + 1) r.2).map
                      (fun x => (x.1, ev ++ [.oracle] ++ x.2))

/-- `main` (builder_v4.py l.193-207): `MAX_ATTEMPTS = 5`. -/
def main (cfg bld : Nat → Bool) (blog : Nat → String)
    (orc : String → List (String × String) → String → String)
    (walk : List (String × List String)) (fs : Fs) : Option (Nat × List Event) :=
  mainAux cfg bld blog orc walk 5 1 fs

end V4

/-! ### Concrete scenario data used by the witnesses and counterexamples -/

/-- A tree holding only a build descriptor. -/
def fsCMake : Fs := fun p => if p = "CMakeLists.txt" then some "cm" else none

/-- A tree holding one compilable source file. -/
def fsA : Fs := fun p => if p = "a.cpp" then some "int x;" else none

/-- A log whose only diagnostic is an undefined reference to
`` Foo::bar(int) `` (built character-wise to keep quoting explicit). -/
def c4Log : String :=
  "undefined reference to " ++ String.mk [backtick] ++ "Foo::bar(int)" ++ String.mk [squote]

/-- A log with a linker-error match on line 1 and a compile-error match on
line 2 — the linker phrase comes first in the text. -/
def c5Log : String :=
  "undefined reference to " ++ String.mk [backtick] ++ "f" ++ String.mk [squote] ++
    "\nb.cpp:3:4: error: y"

/-- An oracle response patching an existing file and a new file. -/
def c1Resp : String := "FILE: a.txt\nA2\nFILE: b.txt\nB1"

/-- A tree in which `a.txt` exists and `b.txt` does not. -/
def c1Fs : Fs := fun p => if p = "a.txt" then some "old" else none

/-- The tree after `parse_and_apply_fixes c1Resp c1Fs` (builder_v3). -/
def c1Out : Fs :=
  fun p => ((applyList V3.applyOne c1Fs (patchEntries c1Resp)).getD (fun _ => none)) p

/-- The tree after `apply_fixes "FILE: a.txt\nnew" c1Fs` (builder_v4). -/
def c1OutV4 : Fs :=
  fun p => ((V4.apply_fixes "FILE: a.txt\nnew" c1Fs).getD (false, fun _ => none)).2 p

/-- A response whose only `FILE:` marker sits in the middle of a line. -/
def c9Resp : String := "see FILE: a.txt here"

/-- The tree after `apply_fixes c9Resp` on an empty tree (builder_v4). -/
def c9Out : Fs :=
  fun p => ((V4.apply_fixes c9Resp (fun _ => none)).getD (false, fun _ => none)).2 p

/-- A source file with three local includes, of which `a.h` and `b.h`
exist and `x.h` does not. -/
def c8Src : String := "#include \"a.h\"\n#include \"x.h\"\n#include \"b.h\"\nint m;\n"

/-- The tree for the include-gathering scenario. -/
def c8Fs : Fs := fun p =>
  if p = "m.cpp" then some c8Src
  else if p = "a.h" then some "A"
  else if p = "b.h" then some "B"
  else none

/-- The pairwise-apartness relation on patch entries under which the backup
statement is provable entry by entry: distinct targets, and no target
colliding with another entry's backup path. -/
def BakApart (a b : String × List Char) : Prop :=
  a.1 ≠ b.1 ∧ a.1 ++ ".bak" ≠ b.1 ∧ b.1 ++ ".bak" ≠ a.1 ∧ a.1 ++ ".bak" ≠ b.1 ++ ".bak"

instance : DecidableRel BakApart := fun a b => by
  unfold BakApart
  infer_instance

/-! ## Theorems -/

theorem fsWrite_at (fs : Fs) (p c : String) : fsWrite fs p c p = some c := by
  simp [fsWrite]

theorem fsWrite_ne (fs : Fs) (p c q : String) (h : q ≠ p) : fsWrite fs p c q = fs q := by
  simp [fsWrite, h]

/-- A v3 write step changes nothing besides its target and its backup. -/
theorem v3_applyOne_point (fs fs₁ : Fs) (e : String × List Char)
    (h : V3.applyOne fs e = some fs₁) (p : String)
    (hp1 : p ≠ e.1) (hp2 : p ≠ e.1 ++ ".bak") : fs₁ p = fs p := by
  unfold V3.applyOne at h
  cases hx : extractCode e.2 with
  | none => rw [hx] at h; exact absurd h (by simp)
  | some code =>
      rw [hx, Option.map_some'] at h
      obtain rfl := (Option.some.inj h).symm
      cases hfe : fs e.1 with
      | some old => simp [hfe, fsWrite, hp1, hp2]
      | none => simp [hfe, fsWrite, hp1]

/-- A v3 write step backs an existing target up, leaves the backup path of
a fresh target alone, and (over)writes the target. -/
theorem v3_applyOne_bak (fs fs₁ : Fs) (e : String × List Char)
    (h : V3.applyOne fs e = some fs₁) (hne : e.1 ++ ".bak" ≠ e.1) :
    (∀ c, fs e.1 = some c → fs₁ (e.1 ++ ".bak") = some c) ∧
    (fs e.1 = none → fs₁ (e.1 ++ ".bak") = fs (e.1 ++ ".bak")) ∧
    (fs₁ e.1).isSome = true := by
  unfold V3.applyOne at h
  cases hx : extractCode e.2 with
  | none => rw [hx] at h; exact absurd h (by simp)
  | some code =>
      rw [hx, Option.map_some'] at h
      obtain rfl := (Option.some.inj h).symm
      refine ⟨fun c hc => ?_, fun hc => ?_, ?_⟩
      · simp [hc, fsWrite, hne]
      · simp [hc, fsWrite, hne]
      · cases hfe : fs e.1 <;> simp [hfe, fsWrite]

/-- A v4 write step changes nothing besides its target. -/
theorem v4_applyOne_point (fs fs₁ : Fs) (e : String × List Char)
    (h : V4.applyOne fs e = some fs₁) (p : String) (hp : p ≠ e.1) : fs₁ p = fs p := by
  unfold V4.applyOne at h
  cases hx : extractCode e.2 with
  | none => rw [hx] at h; exact absurd h (by simp)
  | some code =>
      rw [hx, Option.map_some'] at h
      obtain rfl := (Option.some.inj h).symm
      simp [fsWrite, hp]

/-- The v3 write loop preserves every path that is no entry's target or
backup. -/
theorem v3_applyList_preserve (es : List (String × List Char)) :
    ∀ fs fs' : Fs, applyList V3.applyOne fs es = some fs' →
      ∀ p, (∀ e ∈ es, p ≠ e.1 ∧ p ≠ e.1 ++ ".bak") → fs' p = fs p := by
  induction es with
  | nil =>
      intro fs fs' h p _
      unfold applyList at h
      rw [(Option.some.inj h).symm]
  | cons e es ih =>
      intro fs fs' h p hp
      unfold applyList at h
      cases hs : V3.applyOne fs e with
      | none => rw [hs] at h; exact absurd h (by simp)
      | some fs₁ =>
          rw [hs] at h
          have h1 := ih fs₁ fs' h p (fun t ht => hp t (List.mem_cons_of_mem _ ht))
          have h2 := v3_applyOne_point fs fs₁ e hs p (hp e (List.mem_cons_self _ _)).1
            (hp e (List.mem_cons_self _ _)).2
          rw [h1, h2]

/-- The v4 write loop preserves every path that is no entry's target. -/
theorem v4_applyList_preserve (es : List (String × List Char)) :
    ∀ fs fs' : Fs, applyList V4.applyOne fs es = some fs' →
      ∀ p, (∀ e ∈ es, p ≠ e.1) → fs' p = fs p := by
  induction es with
  | nil =>
      intro fs fs' h p _
      unfold applyList at h
      rw [(Option.some.inj h).symm]
  | cons e es ih =>
      intro fs fs' h p hp
      unfold applyList at h
      cases hs : V4.applyOne fs e with
      | none => rw [hs] at h; exact absurd h (by simp)
      | some fs₁ =>
          rw [hs] at h
          have h1 := ih fs₁ fs' h p (fun t ht => hp t (List.mem_cons_of_mem _ ht))
          have h2 := v4_applyOne_point fs fs₁ e hs p (hp e (List.mem_cons_self _ _))
          rw [h1, h2]

/-- Backup behaviour of the v3 write loop, entry by entry. -/
theorem v3_apply_backup (es : List (String × List Char)) :
    ∀ fs fs' : Fs, applyList V3.applyOne fs es = some fs' →
      es.Pairwise BakApart → (∀ e ∈ es, e.1 ++ ".bak" ≠ e.1) →
      ∀ e ∈ es,
        (∀ c, fs e.1 = some c → fs' (e.1 ++ ".bak") = some c) ∧
        (fs e.1 = none → fs' (e.1 ++ ".bak") = fs (e.1 ++ ".bak")) ∧
        (fs' e.1).isSome = true := by
  induction es with
  | nil => intro fs fs' _ _ _ e he; exact absurd he (List.not_mem_nil e)
  | cons a es ih =>
      intro fs fs' h hpair hself e he
      unfold applyList at h
      cases hs : V3.applyOne fs a with
      | none => rw [hs] at h; exact absurd h (by simp)
      | some fs₁ =>
          rw [hs] at h
          have hrel : ∀ t ∈ es, BakApart a t := (List.pairwise_cons.mp hpair).1
          rcases List.mem_cons.mp he with rfl | hmem
          · -- the head entry: its backup is written now and preserved after
            have hbak := v3_applyOne_bak fs fs₁ e hs (hself e (List.mem_cons_self _ _))
            have hpres1 : fs' (e.1 ++ ".bak") = fs₁ (e.1 ++ ".bak") :=
              v3_applyList_preserve es fs₁ fs' h (e.1 ++ ".bak")
                (fun t ht => ⟨(hrel t ht).2.1, (hrel t ht).2.2.2⟩)
            have hpres2 : fs' e.1 = fs₁ e.1 :=
              v3_applyList_preserve es fs₁ fs' h e.1
                (fun t ht => ⟨(hrel t ht).1, ((hrel t ht).2.2.1).symm⟩)
            exact ⟨fun c hc => hpres1 ▸ hbak.1 c hc,
              fun hc => by rw [hpres1, hbak.2.1 hc],
              by rw [hpres2]; exact hbak.2.2⟩
          · -- a later entry: the head step does not touch it
            have hne1 : e.1 ≠ a.1 := fun hx => ((hrel e hmem).1 hx.symm)
            have hne2 : e.1 ≠ a.1 ++ ".bak" := fun hx => ((hrel e hmem).2.1 hx.symm)
            have hne3 : e.1 ++ ".bak" ≠ a.1 := (hrel e hmem).2.2.1
            have hne4 : e.1 ++ ".bak" ≠ a.1 ++ ".bak" := fun hx => ((hrel e hmem).2.2.2 hx.symm)
            have hstep : fs₁ e.1 = fs e.1 := v3_applyOne_point fs fs₁ a hs e.1 hne1 hne2
            have hstepb : fs₁ (e.1 ++ ".bak") = fs (e.1 ++ ".bak") :=
              v3_applyOne_point fs fs₁ a hs (e.1 ++ ".bak") hne3 hne4
            have hind := ih fs₁ fs' h (List.pairwise_cons.mp hpair).2
              (fun t ht => hself t (List.mem_cons_of_mem _ ht)) e hmem
            exact ⟨fun c hc => hind.1 c (hstep.trans hc),
              fun hc => by rw [hind.2.1 (hstep.trans hc), hstepb],
              hind.2.2⟩

/-- Claim C1 (amended): in builder_v3's `parse_and_apply_fixes`, every
patch entry whose target exists on disk gets a sibling `.bak` holding the
pre-patch content and every entry whose target is new gets none (for patch
sets whose targets do not collide with each other or with each other's
backup paths), while builder_v4's `apply_fixes` takes no backups at all —
it writes nothing besides the entry targets themselves. -/
theorem claim1_backup_behavior :
    (∀ (r : String) (fs fs' : Fs) (es : List (String × List Char)),
      patchEntries r = es →
      applyList V3.applyOne fs es = some fs' →
      es.Pairwise BakApart →
      (∀ e ∈ es, e.1 ++ ".bak" ≠ e.1) →
      ∀ e ∈ es,
        (∀ c, fs e.1 = some c → fs' (e.1 ++ ".bak") = some c) ∧
        (fs e.1 = none → fs' (e.1 ++ ".bak") = fs (e.1 ++ ".bak")) ∧
        (fs' e.1).isSome = true) ∧
    (∀ (r : String) (fs fs' : Fs) (b : Bool),
      V4.apply_fixes r fs = some (b, fs') →
      ∀ p, (∀ e ∈ patchEntries r, p ≠ e.1) → fs' p = fs p) := by
  constructor
  · intro r fs fs' es _ hfold hpair hself
    exact v3_apply_backup es fs fs' hfold hpair hself
  · intro r fs fs' b h p hp
    unfold V4.apply_fixes at h
    by_cases hl : (fileSplit r.data).length < 2
    · rw [if_pos hl] at h
      obtain ⟨-, rfl⟩ := Prod.mk.injEq .. ▸ Option.some.inj h
      rfl
    · rw [if_neg hl] at h
      cases hs : applyList V4.applyOne fs (patchEntries r) with
      | none => rw [hs] at h; exact absurd h (by simp)
      | some f =>
          rw [hs, Option.map_some'] at h
          obtain ⟨-, rfl⟩ := Prod.mk.injEq .. ▸ Option.some.inj h
          exact v4_applyList_preserve (patchEntries r) fs f hs p hp

/-- Claim C1 fails as stated: builder_v4's `apply_fixes` overwrites the
existing `a.txt` without leaving any `a.txt.bak`. -/
theorem claim1_counterexample :
    (V4.apply_fixes "FILE: a.txt\nnew" c1Fs).map
        (fun r => (r.1, r.2 "a.txt", r.2 ("a.txt" ++ ".bak"))) =
      some (true, some "new", none) := by decide

/-- Witness for C1: a concrete two-entry patch over a tree where `a.txt`
exists and `b.txt` does not. -/
theorem claim1_witness :
    (c1Out ("a.txt" ++ ".bak") = some "old" ∧
      c1Out ("b.txt" ++ ".bak") = c1Fs ("b.txt" ++ ".bak") ∧
      (c1Out "a.txt").isSome = true ∧ (c1Out "b.txt").isSome = true) ∧
    c1OutV4 ("a.txt" ++ ".bak") = c1Fs ("a.txt" ++ ".bak") := by
  have h3 := claim1_backup_behavior.1 c1Resp c1Fs c1Out (patchEntries c1Resp) rfl rfl
    (by decide) (by decide)
  have ha := h3 ("a.txt", "\nA2\n".data) (by decide)
  have hb := h3 ("b.txt", "\nB1".data) (by decide)
  have h4 := claim1_backup_behavior.2 "FILE: a.txt\nnew" c1Fs c1OutV4 true rfl
    ("a.txt" ++ ".bak") (by decide)
  exact ⟨⟨ha.1 "old" rfl, hb.2.1 rfl, ha.2.2, hb.2.2⟩, h4⟩

/-- builder.py aborts the attempt on a failed configure: report, no build,
no oracle, tree untouched. -/
theorem v1_build_project_cfg_fail (fs : Fs) (bldOk : Bool) (bldLog : String)
    (orc : String → String → String → String) (relp : String → Option String)
    (hcm : fs "CMakeLists.txt" ≠ none) :
    V1.build_project fs false bldOk bldLog orc relp =
      some (false, fs, [Event.configure, Event.report]) := by
  unfold V1.build_project
  rw [if_neg hcm]
  simp

/-- One step of builder.py's loop under a failed configure: the session
continues with the next attempt. -/
theorem v1_mainAux_cfg_fail (cfg bld : Nat → Bool) (blog : Nat → String)
    (orc : String → String → String → String) (relp : String → Option String)
    (fuel att : Nat) (fs : Fs)
    (hc : cfg att = false) (hcm : fs "CMakeLists.txt" ≠ none) :
    V1.mainAux cfg bld blog orc relp (fuel + 1) att fs =
      (V1.mainAux cfg bld blog orc relp fuel (att + 1) fs).map
        (fun r => (r.1, Event.configure :: Event.report :: r.2)) := by
  simp only [V1.mainAux]
  rw [hc, v1_build_project_cfg_fail fs (bld att) (blog att) orc relp hcm]
  rfl

/-- Claim C2 (amended): in builder.py a non-zero configure exit is
reported and aborts only the current attempt without engaging the oracle —
the session proceeds to further attempts and, when every configure fails,
ends after `MAX_ATTEMPTS` attempts with the non-zero exit, rather than
terminating immediately; builder_v4 and builder_v3 ignore the configure
result entirely. -/
theorem claim2_configure_behavior :
    (∀ (fs : Fs) (bldOk : Bool) (bldLog : String)
      (orc : String → String → String → String) (relp : String → Option String),
      fs "CMakeLists.txt" ≠ none →
      V1.build_project fs false bldOk bldLog orc relp =
        some (false, fs, [Event.configure, Event.report])) ∧
    (∀ (cfg bld : Nat → Bool) (blog : Nat → String)
      (orc : String → String → String → String) (relp : String → Option String) (fs : Fs),
      fs "CMakeLists.txt" ≠ none →
      (∀ a, cfg a = false) →
      V1.main cfg bld blog orc relp fs =
        some (1, [Event.configure, Event.report, Event.configure, Event.report,
                  Event.configure, Event.report])) ∧
    (∀ (c₁ c₂ bldOk : Bool) (bldLog : String),
      V4.build_project c₁ bldOk bldLog = V4.build_project c₂ bldOk bldLog) ∧
    (∀ (fs : Fs) (c₁ c₂ bldOk : Bool) (bldLog : String)
      (orc : String → String → List (String × String) → String → String),
      V3.build_project fs c₁ bldOk bldLog orc = V3.build_project fs c₂ bldOk bldLog orc) := by
  refine ⟨fun fs bldOk bldLog orc relp hcm =>
      v1_build_project_cfg_fail fs bldOk bldLog orc relp hcm,
    fun cfg bld blog orc relp fs hcm hcfg => ?_, fun _ _ _ _ => rfl, fun _ _ _ _ _ _ => rfl⟩
  unfold V1.main
  rw [v1_mainAux_cfg_fail cfg bld blog orc relp 2 1 fs (hcfg 1) hcm,
    v1_mainAux_cfg_fail cfg bld blog orc relp 1 2 fs (hcfg 2) hcm,
    v1_mainAux_cfg_fail cfg bld blog orc relp 0 3 fs (hcfg 3) hcm]
  simp [V1.mainAux]

/-- Claim C2 fails as stated: with a configure that always exits non-zero,
builder.py runs the configure step three times (one per attempt) before
exiting — the first configure failure does not terminate the session. -/
theorem claim2_counterexample :
    V1.main (fun _ => false) (fun _ => false) (fun _ => "") (fun _ _ _ => "")
        (fun _ => none) fsCMake =
      some (1, [Event.configure, Event.report, Event.configure, Event.report,
                Event.configure, Event.report]) ∧
    [Event.configure, Event.report, Event.configure, Event.report,
      Event.configure, Event.report].count Event.configure = 3 := by decide

/-- Witness for C2 at a concrete tree and schedule. -/
theorem claim2_witness :
    V1.build_project fsCMake false true "" (fun _ _ _ => "") (fun _ => none) =
      some (false, fsCMake, [Event.configure, Event.report]) ∧
    V1.main (fun _ => false) (fun _ => true) (fun _ => "") (fun _ _ _ => "")
        (fun _ => none) fsCMake =
      some (1, [Event.configure, Event.report, Event.configure, Event.report,
                Event.configure, Event.report]) ∧
    V4.build_project true false "log" = V4.build_project false false "log" ∧
    V3.build_project fsCMake true false "log" (fun _ _ _ _ => "") =
      V3.build_project fsCMake false false "log" (fun _ _ _ _ => "") :=
  ⟨claim2_configure_behavior.1 fsCMake true "" (fun _ _ _ => "") (fun _ => none) (by decide),
   claim2_configure_behavior.2.1 (fun _ => false) (fun _ => true) (fun _ => "")
     (fun _ _ _ => "") (fun _ => none) fsCMake (by decide) (fun _ => rfl),
   claim2_configure_behavior.2.2.1 true false false "log",
   claim2_configure_behavior.2.2.2 fsCMake true false false "log" (fun _ _ _ _ => "")⟩

/-- Claim C3: builder_v4's `main` contradicts the specification — after
`MAX_ATTEMPTS = 5` attempts with a classifiable, never-succeeding build
(an `ExhaustedAttempts` outcome: five build invocations, none successful),
the `for` loop simply ends and the script finishes with completion signal
0, although the spec requires every terminal condition other than
`Succeeded` to end with a non-zero signal (as builder.py and builder_v3 do
via their final `sys.exit(1)`). -/
theorem claim3_exhausted_attempts_exit_zero :
    V4.main (fun _ => true) (fun _ => false) (fun _ => "a.cpp:1:2: error: x")
        (fun _ _ _ => "FILE: a.cpp\nint y;") [] fsA =
      some (0, [Event.configure, Event.build, Event.oracle,
                Event.configure, Event.build, Event.oracle,
                Event.configure, Event.build, Event.oracle,
                Event.configure, Event.build, Event.oracle,
                Event.configure, Event.build, Event.oracle]) ∧
    [Event.configure, Event.build, Event.oracle,
      Event.configure, Event.build, Event.oracle,
      Event.configure, Event.build, Event.oracle,
      Event.configure, Event.build, Event.oracle,
      Event.configure, Event.build, Event.oracle].count Event.build = 5 := by decide

/-- Claim C4 (amended): on a log containing only the undefined-reference
phrase, builder_v4's classification captures the symbol *with* its
argument list — `Foo::bar(int)` — and the strip of everything from the
first `(` happens only inside `search_symbol_in_project`, which derives
the bare `Foo::bar` from the diagnosed symbol. -/
theorem claim4_linker_symbol :
    V4.classify c4Log = DiagnosedError.link "Foo::bar(int)" ∧
    V4.cleanSymbol "Foo::bar(int)" = "Foo::bar" ∧
    compileSearch c4Log = none := by decide

/-- Claim C4 fails as stated: the classification result keeps the argument
suffix, so the diagnosed symbol is not the stripped `Foo::bar`. -/
theorem claim4_counterexample :
    V4.classify c4Log = DiagnosedError.link "Foo::bar(int)" ∧
    DiagnosedError.link "Foo::bar(int)" ≠ DiagnosedError.link "Foo::bar" := by decide

/-- Claim C5: builder_v4 searches for the compile-error grammar first, so
whenever both grammars match somewhere in the log — wherever the two
matches sit — the classification is the `CompileError` variant. -/
theorem claim5_compile_precedence (log : String)
    (hc : (compileSearch log).isSome = true)
    (_hl : (linkerSearch log).isSome = true) :
    ∃ p l c m, V4.classify log = DiagnosedError.compile p l c m := by
  unfold V4.classify
  cases h : compileSearch log with
  | none => rw [h] at hc; exact absurd hc (by simp)
  | some g =>
      obtain ⟨p, l, c, m⟩ := g
      exact ⟨p, l, c, m, rfl⟩

/-- Witness for C5: a log whose linker phrase comes *before* its
compile-error line still classifies as a compile error. -/
theorem claim5_witness :
    (compileSearch c5Log).isSome = true ∧ (linkerSearch c5Log).isSome = true ∧
    ∃ p l c m, V4.classify c5Log = DiagnosedError.compile p l c m :=
  ⟨by decide, by decide, claim5_compile_precedence c5Log (by decide) (by decide)⟩

/-- `apply_fixes` on a response without any `FILE:` marker (fewer than two
split parts) reports `False` and leaves the tree untouched. -/
theorem v4_apply_fixes_no_marker (r : String) (fs : Fs)
    (h : (fileSplit r.data).length < 2) :
    V4.apply_fixes r fs = some (false, fs) := by
  unfold V4.apply_fixes
  rw [if_pos h]

/-- `build_project` of builder_v4 on a failing build. -/
theorem v4_build_project_fail (c : Bool) (log : String) :
    V4.build_project c false log = (false, some log, [Event.configure, Event.build]) := rfl

/-- The compile branch of builder_v4's `analyze_and_fix` returns the
oracle's response over the gathered bundle. -/
theorem v4_analyze_compile (fs : Fs) (walk : List (String × List String))
    (orc : String → List (String × String) → String → String)
    (log p l c m : String) (files : List (String × String))
    (hcls : V4.classify log = DiagnosedError.compile p l c m)
    (hbund : V4.compileBundle fs p = some files) :
    V4.analyze_and_fix fs walk orc log = some (some (orc "compile" files log)) := by
  have hstep : V4.analyze_and_fix fs walk orc log =
      (match V4.compileBundle fs p with
       | none => none
       | some fls => some (some (orc "compile" fls log))) := by
    unfold V4.analyze_and_fix
    rw [hcls]
  rw [hstep, hbund]

/-- The compile branch of builder_v4's `analyze_and_fix` raises (and the
exception is uncaught) when the culprit file cannot be read. -/
theorem v4_analyze_read_fail (fs : Fs) (walk : List (String × List String))
    (orc : String → List (String × String) → String → String)
    (log p l c m : String)
    (hcls : V4.classify log = DiagnosedError.compile p l c m)
    (hread : fs p = none) :
    V4.analyze_and_fix fs walk orc log = none := by
  have hstep : V4.analyze_and_fix fs walk orc log =
      (match V4.compileBundle fs p with
       | none => none
       | some fls => some (some (orc "compile" fls log))) := by
    unfold V4.analyze_and_fix
    rw [hcls]
  have hbund : V4.compileBundle fs p = none := by
    unfold V4.compileBundle
    rw [hread]
  rw [hstep, hbund]

/-- Claim C6 (amended): a *non-empty* oracle response without any `FILE:`
marker parses to the invalid patch set (`False`) without an exception,
changes no file, and builder_v4's loop proceeds to the next attempt; an
*empty* response — which also has zero markers — instead makes `main`
exit 1 at once because of the truthiness test on the response. -/
theorem claim6_zero_markers :
    (∀ (r : String) (fs : Fs), (fileSplit r.data).length < 2 →
      V4.apply_fixes r fs = some (false, fs)) ∧
    (∀ (cfg bld : Nat → Bool) (blog : Nat → String)
      (orc : String → List (String × String) → String → String)
      (walk : List (String × List String)) (fuel att : Nat) (fs : Fs)
      (p l c m r : String) (files : List (String × String)),
      bld att = false →
      V4.classify (blog att) = DiagnosedError.compile p l c m →
      V4.compileBundle fs p = some files →
      orc "compile" files (blog att) = r →
      r ≠ "" →
      (fileSplit r.data).length < 2 →
      V4.mainAux cfg bld blog orc walk (fuel + 1) att fs =
        (V4.mainAux cfg bld blog orc walk fuel (att + 1) fs).map
          (fun x => (x.1, Event.configure :: Event.build :: Event.oracle :: x.2))) := by
  refine ⟨fun r fs h => v4_apply_fixes_no_marker r fs h, ?_⟩
  intro cfg bld blog orc walk fuel att fs p l c m r files hbld hcls hbund horc hne hlen
  simp only [V4.mainAux]
  rw [hbld, v4_build_project_fail,
    v4_analyze_compile fs walk orc (blog att) p l c m files hcls hbund, horc]
  show (if r = "" then
        some (1, [Event.configure, Event.build] ++ [Event.oracle, Event.report])
      else
        match V4.apply_fixes r fs with
        | none => none
        | some x =>
            Option.map (fun y => (y.1, [Event.configure, Event.build] ++ [Event.oracle] ++ y.2))
              (V4.mainAux cfg bld blog orc walk fuel (att + 1) x.2)) = _
  rw [if_neg hne, v4_apply_fixes_no_marker r fs hlen]
  rfl

/-- Claim C6 fails as stated: an empty oracle response contains zero
`FILE:` markers, yet the session terminates right away with exit signal 1
instead of proceeding to the next attempt. -/
theorem claim6_counterexample :
    (fileSplit "".data).length < 2 ∧
    V4.main (fun _ => true) (fun _ => false) (fun _ => "a.cpp:1:2: error: x")
        (fun _ _ _ => "") [] fsA =
      some (1, [Event.configure, Event.build, Event.oracle, Event.report]) := by decide

/-- Witness for C6 with a concrete marker-free, non-empty response. -/
theorem claim6_witness :
    V4.apply_fixes "no markers" fsA = some (false, fsA) ∧
    V4.mainAux (fun _ => true) (fun _ => false) (fun _ => "a.cpp:1:2: error: x")
        (fun _ _ _ => "no markers") [] 2 1 fsA =
      (V4.mainAux (fun _ => true) (fun _ => false) (fun _ => "a.cpp:1:2: error: x")
          (fun _ _ _ => "no markers") [] 1 2 fsA).map
        (fun x => (x.1, Event.configure :: Event.build :: Event.oracle :: x.2)) :=
  ⟨claim6_zero_markers.1 "no markers" fsA (by decide),
   claim6_zero_markers.2 (fun _ => true) (fun _ => false) (fun _ => "a.cpp:1:2: error: x")
     (fun _ _ _ => "no markers") [] 1 1 fsA "a.cpp" "1" "2" "x" "no markers"
     [("a.cpp", "int x;")] rfl (by decide) (by decide) rfl (by decide) (by decide)⟩

/-- builder.py aborts the attempt, without an oracle call or a write, when
the culprit file named by the diagnosis cannot be read. -/
theorem v1_build_project_read_fail (fs : Fs) (bldLog : String)
    (orc : String → String → String → String) (relp : String → Option String)
    (g : String × String × String)
    (hcm : fs "CMakeLists.txt" ≠ none)
    (hf : V1.find_culprit_file relp bldLog = some g)
    (hread : fs g.1 = none) :
    V1.build_project fs true false bldLog orc relp =
      some (false, fs, [Event.configure, Event.build, Event.report]) := by
  obtain ⟨p, l, msg⟩ := g
  have hread' : fs p = none := hread
  have hstep : V1.build_project fs true false bldLog orc relp =
      (match fs p with
       | none => some (false, fs, [Event.configure, Event.build, Event.report])
       | some code =>
           match V1.extract_code (orc code bldLog p) with
           | none => none
           | some fixed =>
               some (false, fsWrite (fsWrite fs (p ++ ".bak") code) p fixed,
                 [Event.configure, Event.build, Event.oracle, Event.write p])) := by
    unfold V1.build_project
    rw [if_neg hcm, hf]
    rfl
  rw [hstep, hread']

/-- builder_v3 behaves the same on an unreadable culprit file. -/
theorem v3_build_project_read_fail (fs : Fs) (bldLog : String)
    (orc : String → String → List (String × String) → String → String)
    (g : String × String × String)
    (hcm : fs "CMakeLists.txt" ≠ none)
    (hf : V3.find_culprit_file bldLog = some g)
    (hread : fs g.1 = none) :
    V3.build_project fs true false bldLog orc =
      some (false, fs, [Event.configure, Event.build, Event.report]) := by
  obtain ⟨p, l, msg⟩ := g
  have hread' : fs p = none := hread
  have hstep : V3.build_project fs true false bldLog orc =
      (match fs p with
       | none => some (false, fs, [Event.configure, Event.build, Event.report])
       | some src =>
           match V3.parse_and_apply_fixes
               (orc p src (V3.get_related_headers fs src (pyDirname p)) bldLog) fs with
           | none => none
           | some r => some (false, r.2, [Event.configure, Event.build, Event.oracle])) := by
    unfold V3.build_project
    rw [if_neg hcm, hf]
    rfl
  rw [hstep, hread']

/-- Claim C7 (amended): only builder_v4 treats an unreadable culprit file
as session-terminal — the unguarded `open` raises and the uncaught
exception aborts the process; in builder.py and builder_v3 the failed read
merely ends the current attempt (`return False` under the
`FileNotFoundError` handler) and the loop proceeds to the next attempt. -/
theorem claim7_read_failure :
    (∀ (fs : Fs) (walk : List (String × List String))
      (orc : String → List (String × String) → String → String) (log p l c m : String),
      V4.classify log = DiagnosedError.compile p l c m → fs p = none →
      V4.analyze_and_fix fs walk orc log = none) ∧
    (∀ (cfg bld : Nat → Bool) (blog : Nat → String)
      (orc : String → List (String × String) → String → String)
      (walk : List (String × List String)) (fuel att : Nat) (fs : Fs) (p l c m : String),
      bld att = false →
      V4.classify (blog att) = DiagnosedError.compile p l c m →
      fs p = none →
      V4.mainAux cfg bld blog orc walk (fuel + 1) att fs = none) ∧
    (∀ (fs : Fs) (bldLog : String) (orc : String → String → String → String)
      (relp : String → Option String) (g : String × String × String),
      fs "CMakeLists.txt" ≠ none →
      V1.find_culprit_file relp bldLog = some g → fs g.1 = none →
      V1.build_project fs true false bldLog orc relp =
        some (false, fs, [Event.configure, Event.build, Event.report])) ∧
    (∀ (cfg bld : Nat → Bool) (blog : Nat → String)
      (orc : String → String → String → String) (relp : String → Option String)
      (fuel att : Nat) (fs : Fs) (g : String × String × String),
      fs "CMakeLists.txt" ≠ none →
      cfg att = true → bld att = false →
      V1.find_culprit_file relp (blog att) = some g → fs g.1 = none →
      V1.mainAux cfg bld blog orc relp (fuel + 1) att fs =
        (V1.mainAux cfg bld blog orc relp fuel (att + 1) fs).map
          (fun r => (r.1, Event.configure :: Event.build :: Event.report :: r.2))) ∧
    (∀ (fs : Fs) (bldLog : String)
      (orc : String → String → List (String × String) → String → String)
      (g : String × String × String),
      fs "CMakeLists.txt" ≠ none →
      V3.find_culprit_file bldLog = some g → fs g.1 = none →
      V3.build_project fs true false bldLog orc =
        some (false, fs, [Event.configure, Event.build, Event.report])) := by
  refine ⟨fun fs walk orc log p l c m hcls hread =>
      v4_analyze_read_fail fs walk orc log p l c m hcls hread,
    ?_, fun fs bldLog orc relp g hcm hf hread =>
      v1_build_project_read_fail fs bldLog orc relp g hcm hf hread,
    ?_, fun fs bldLog orc g hcm hf hread =>
      v3_build_project_read_fail fs bldLog orc g hcm hf hread⟩
  · intro cfg bld blog orc walk fuel att fs p l c m hbld hcls hread
    simp only [V4.mainAux]
    rw [hbld, v4_build_project_fail,
      v4_analyze_read_fail fs walk orc (blog att) p l c m hcls hread]
  · intro cfg bld blog orc relp fuel att fs g hcm hcfg hbld hf hread
    simp only [V1.mainAux]
    rw [hcfg, hbld, v1_build_project_read_fail fs (blog att) orc relp g hcm hf hread]
    rfl

/-- Claim C7 fails as stated for builder.py: with the culprit file
missing, the session runs all three attempts (three builds) before exiting
— the loop does continue after the failed read. -/
theorem claim7_counterexample :
    V1.main (fun _ => true) (fun _ => false) (fun _ => "gone.cpp:1:1: error: x")
        (fun _ _ _ => "") (fun _ => none) fsCMake =
      some (1, [Event.configure, Event.build, Event.report,
                Event.configure, Event.build, Event.report,
                Event.configure, Event.build, Event.report]) ∧
    [Event.configure, Event.build, Event.report,
      Event.configure, Event.build, Event.report,
      Event.configure, Event.build, Event.report].count Event.build = 3 := by decide

/-- Witness for C7 at a concrete tree with the culprit absent. -/
theorem claim7_witness :
    V4.analyze_and_fix fsCMake [] (fun _ _ _ => "") "gone.cpp:1:1: error: x" = none ∧
    V4.mainAux (fun _ => true) (fun _ => false) (fun _ => "gone.cpp:1:1: error: x")
        (fun _ _ _ => "") [] 5 1 fsCMake = none ∧
    V1.build_project fsCMake true false "gone.cpp:1:1: error: x" (fun _ _ _ => "")
        (fun _ => none) =
      some (false, fsCMake, [Event.configure, Event.build, Event.report]) ∧
    V1.mainAux (fun _ => true) (fun _ => false) (fun _ => "gone.cpp:1:1: error: x")
        (fun _ _ _ => "") (fun _ => none) 3 1 fsCMake =
      (V1.mainAux (fun _ => true) (fun _ => false) (fun _ => "gone.cpp:1:1: error: x")
          (fun _ _ _ => "") (fun _ => none) 2 2 fsCMake).map
        (fun r => (r.1, Event.configure :: Event.build :: Event.report :: r.2)) ∧
    V3.build_project fsCMake true false "gone.cpp:1:1: error: x" (fun _ _ _ _ => "") =
      some (false, fsCMake, [Event.configure, Event.build, Event.report]) :=
  ⟨claim7_read_failure.1 fsCMake [] (fun _ _ _ => "") "gone.cpp:1:1: error: x"
     "gone.cpp" "1" "1" "x" (by decide) (by decide),
   claim7_read_failure.2.1 (fun _ => true) (fun _ => false) (fun _ => "gone.cpp:1:1: error: x")
     (fun _ _ _ => "") [] 4 1 fsCMake "gone.cpp" "1" "1" "x" rfl (by decide) (by decide),
   claim7_read_failure.2.2.1 fsCMake "gone.cpp:1:1: error: x" (fun _ _ _ => "")
     (fun _ => none) ("gone.cpp", "1", "x") (by decide) (by decide) (by decide),
   claim7_read_failure.2.2.2.1 (fun _ => true) (fun _ => false)
     (fun _ => "gone.cpp:1:1: error: x") (fun _ _ _ => "") (fun _ => none) 2 1 fsCMake
     ("gone.cpp", "1", "x") (by decide) rfl rfl (by decide) (by decide),
   claim7_read_failure.2.2.2.2 fsCMake "gone.cpp:1:1: error: x" (fun _ _ _ _ => "")
     ("gone.cpp", "1", "x") (by decide) (by decide) (by decide)⟩

/-- A dict assignment with a fresh key appends. -/
theorem dictInsert_fresh (d : List (String × String)) (k v : String)
    (h : ∀ e ∈ d, k ≠ e.1) : dictInsert d k v = d ++ [(k, v)] := by
  have hany : ¬ (d.any (fun e => e.1 == k) = true) := by
    simp only [List.any_eq_true, beq_iff_eq]
    rintro ⟨e, he, hek⟩
    exact h e he hek.symm
  unfold dictInsert
  rw [if_neg hany]

/-- The include-gathering fold of builder_v4 appends, in order, exactly the
includes that exist, provided the scanned paths are distinct and fresh for
the accumulator. -/
theorem gatherFold_eq (fs : Fs) :
    ∀ (il : List String) (acc : List (String × String)),
      il.Pairwise (fun a b => a ≠ b) →
      (∀ h ∈ il, ∀ e ∈ acc, h ≠ e.1) →
      il.foldl (fun files h =>
        match fs h with
        | some hc => dictInsert files h hc
        | none => files) acc =
        acc ++ il.filterMap (fun h => (fs h).map (fun c => (h, c))) := by
  intro il
  induction il with
  | nil => intro acc _ _; simp
  | cons a il ih =>
      intro acc hp hacc
      simp only [List.foldl_cons, List.filterMap_cons]
      cases hfa : fs a with
      | none =>
          exact ih acc (List.pairwise_cons.mp hp).2
            (fun h hm e he => hacc h (List.mem_cons_of_mem _ hm) e he)
      | some c =>
          show List.foldl (fun files h =>
              match fs h with
              | some hc => dictInsert files h hc
              | none => files) (dictInsert acc a c) il =
            acc ++ ((a, c) ::
              List.filterMap (fun h => Option.map (fun hc => (h, hc)) (fs h)) il)
          rw [dictInsert_fresh acc a c (hacc a (List.mem_cons_self _ _))]
          rw [ih (acc ++ [(a, c)]) (List.pairwise_cons.mp hp).2 ?fresh]
          · simp
          case fresh =>
              intro h hm e he
              rcases List.mem_append.mp he with hin | hin
              · exact hacc h (List.mem_cons_of_mem _ hm) e hin
              · rcases List.mem_singleton.mp hin with rfl
                exact (((List.pairwise_cons.mp hp).1 h hm).symm : h ≠ a)

/-- Filtering to the entries on which `g` fires does not change a
`filterMap`. -/
theorem filterMap_eq_on_filter {α β : Type} (g : α → Option β) :
    ∀ l : List α, l.filterMap g = (l.filter (fun a => (g a).isSome)).filterMap g := by
  intro l
  induction l with
  | nil => rfl
  | cons a l ih =>
      cases hg : g a with
      | none => simp [List.filterMap_cons, List.filter_cons, hg, ih]
      | some b => simp [List.filterMap_cons, List.filter_cons, hg, ih]

/-- Claim C8: for a culprit whose include scan yields three distinct local
targets of which exactly two exist, builder_v4's context gathering returns
exactly the three entries — the broken file first, then the two existing
headers in the textual order of their includes — and the missing include
is skipped without an error (the bundle is `some`, no exception). -/
theorem claim8_gather_bundle (fs : Fs) (b cb : String) (il : List String)
    (h1 h2 c1 c2 : String)
    (hb : fs b = some cb)
    (hil : V4.includePaths b cb = il)
    (_hlen : il.length = 3)
    (hdist : il.Pairwise (fun a b => a ≠ b))
    (hnotb : ∀ h ∈ il, h ≠ b)
    (hfilter : il.filter (fun h => (fs h).isSome) = [h1, h2])
    (hh1 : fs h1 = some c1) (hh2 : fs h2 = some c2) :
    V4.compileBundle fs b = some [(b, cb), (h1, c1), (h2, c2)] := by
  have hstep : V4.compileBundle fs b =
      some ((V4.includePaths b cb).foldl (fun files h =>
        match fs h with
        | some hc => dictInsert files h hc
        | none => files) [(b, cb)]) := by
    unfold V4.compileBundle
    rw [hb]
  rw [hstep, hil]
  rw [gatherFold_eq fs il [(b, cb)] hdist ?hacc]
  case hacc =>
      intro h hm e he
      rcases List.mem_singleton.mp he with rfl
      exact hnotb h hm
  rw [filterMap_eq_on_filter]
  have hpred : il.filter (fun a => ((fs a).map (fun c => (a, c))).isSome) =
      il.filter (fun h => (fs h).isSome) := by
    apply List.filter_congr
    intro a _
    cases fs a <;> rfl
  rw [hpred, hfilter]
  simp [List.filterMap_cons, hh1, hh2]

/-- Witness for C8 on a concrete tree: `a.h` and `b.h` exist, `x.h` does
not. -/
theorem claim8_witness :
    V4.compileBundle c8Fs "m.cpp" =
      some [("m.cpp", c8Src), ("a.h", "A"), ("b.h", "B")] :=
  claim8_gather_bundle c8Fs "m.cpp" c8Src ["a.h", "x.h", "b.h"] "a.h" "b.h" "A" "B"
    (by decide) (by decide) (by decide) (by decide) (by decide) (by decide)
    (by decide) (by decide)

/-- Claim C9 (amended): the `FILE:` marker split of builder_v3/v4 is not
anchored to line starts — a `FILE: <path>` occurrence anywhere in the
response text, including mid-line, begins a patch entry. -/
theorem claim9_marker_anywhere :
    (patchEntries "FILE: a.cpp\nX").map (fun e => e.1) = ["a.cpp"] ∧
    (patchEntries "mid FILE: b.cpp rest").map (fun e => e.1) = ["b.cpp"] ∧
    patchEntries "no marker" = [] := by decide

/-- Claim C9 fails as stated: a mid-line `FILE: a.txt` does begin a patch
entry — builder_v4 writes `a.txt`. -/
theorem claim9_counterexample :
    (fileSplit c9Resp.data).map String.mk = ["see ", "a.txt", " here"] ∧
    c9Out "a.txt" = some "here" := by decide

/-- Claim C10: builder_v4's source-file walk drops every directory whose
path merely *contains* `"build"` or `".git"` as a substring — the files of
such an entry contribute nothing to the scan result. -/
theorem claim10_walk_skip (pre post : List (String × List String)) (root : String)
    (files : List String)
    (h : (pyInStr "build" root || pyInStr ".git" root) = true) :
    V4.get_all_source_files (pre ++ (root, files) :: post) =
      V4.get_all_source_files (pre ++ post) := by
  induction pre with
  | nil =>
      simp only [List.nil_append]
      unfold V4.get_all_source_files
      rw [List.foldr_cons, if_pos h]
  | cons e pre ih =>
      unfold V4.get_all_source_files at ih ⊢
      simp only [List.cons_append, List.foldr_cons]
      rw [ih]

/-- Witness for C10: a `./rebuild` entry is skipped although it is not the
build-output directory. -/
theorem claim10_witness :
    (pyInStr "build" "./rebuild" || pyInStr ".git" "./rebuild") = true ∧
    V4.get_all_source_files
        [("./src", ["a.cpp"]), ("./rebuild", ["bad.cpp"]), ("./inc", ["b.h"])] =
      V4.get_all_source_files [("./src", ["a.cpp"]), ("./inc", ["b.h"])] :=
  ⟨by decide,
   claim10_walk_skip [("./src", ["a.cpp"])] [("./inc", ["b.h"])] "./rebuild" ["bad.cpp"]
     (by decide)⟩

end GccAgent
